import Mathlib

/-!
Shallow embedding of the VigilanceOS telemetry core
(`backend-api/app`): the threshold evaluator (`services/anomaly_forwarder.py`),
the ingestion route and anomaly resolution (`routes/telemetry.py`), and the
WebSocket connection manager (`routes/websocket.py`).

Numeric metric values and timestamps are modelled as rationals (the Python
code only compares and stores them; no float rounding is exercised by the
evaluated paths).  Python `KeyError` on a missing dict key is modelled with
`Except Unit`; the `try/except` swallowing of errors in `check_anomaly` is
modelled by mapping the error case to an empty effect list plus a logged-error
flag.
-/

namespace VigilanceOS

/-- `DeviceStatus` enum from `models/device.py`. -/
inductive DeviceStatus where
  | ONLINE
  | OFFLINE
  | WARNING
  | ERROR
deriving DecidableEq, Repr

/-- One metric's entry in the JSON `threshold_config` dict: the `"min"` and
`"max"` keys, each possibly absent. -/
structure MetricBound where
  min : Option ℚ
  max : Option ℚ
deriving DecidableEq, Repr

/-- The per-device `threshold_config` JSON dict, restricted to the three
metric keys the code reads (`"temperature"`, `"battery"`,
`"signal_strength"`); a `none` field is a key absent from the dict. -/
structure ThresholdConfig where
  temperature : Option MetricBound
  battery : Option MetricBound
  signal_strength : Option MetricBound
deriving DecidableEq, Repr

/-- Python truthiness of the `threshold_config` dict: an empty dict is falsy,
so `if not device.threshold_config` also returns early on `{}`. -/
def ThresholdConfig.isEmpty (c : ThresholdConfig) : Bool :=
  c.temperature.isNone && c.battery.isNone && c.signal_strength.isNone

/-- The `TelemetryCreate` payload (`schemas/telemetry.py`): a device id and
six independently optional numeric metrics; `none` means the metric is not
reported (the key is absent from `telemetry_data`). -/
structure TelemetryData where
  device_id : String
  temperature : Option ℚ
  battery : Option ℚ
  signal_strength : Option ℚ
  cpu_usage : Option ℚ
  memory_usage : Option ℚ
  disk_usage : Option ℚ
deriving DecidableEq, Repr

/-- The `type` tags appended to `anomalies_detected` in `check_anomaly`. -/
inductive AnomalyType where
  | HIGH_TEMPERATURE
  | LOW_TEMPERATURE
  | LOW_BATTERY
  | WEAK_SIGNAL
deriving DecidableEq, Repr

/-- The `severity` strings used by `check_anomaly`. -/
inductive Severity where
  | low
  | medium
  | high
deriving DecidableEq, Repr

/-- One entry of `anomalies_detected`.  The human-readable `reason` f-string
is modelled structurally by the two numbers interpolated into it: the metric
value and the threshold bound it was compared against. -/
structure AnomalyCandidate where
  type : AnomalyType
  reasonValue : ℚ
  reasonBound : ℚ
  severity : Severity
deriving DecidableEq, Repr

/-- The temperature block of `check_anomaly` (anomaly_forwarder.py lines
24-37).  When both the sample and the config have a `"temperature"` key, the
code evaluates `temp > thresholds["temperature"]["max"]` first — a missing
`"max"` key raises `KeyError` (`.error ()`); only in the `elif` does it read
`"min"`, so a missing `"min"` raises only when `temp <= max`. -/
def tempEval (t : TelemetryData) (th : ThresholdConfig) :
    Except Unit (List AnomalyCandidate) :=
  match t.temperature, th.temperature with
  | some temp, some b =>
    match b.max with
    | none => .error ()
    | some mx =>
      if temp > mx then
        .ok [⟨.HIGH_TEMPERATURE, temp, mx, .high⟩]
      else
        match b.min with
        | none => .error ()
        | some mn =>
          if temp < mn then .ok [⟨.LOW_TEMPERATURE, temp, mn, .medium⟩]
          else .ok []
  | _, _ => .ok []

/-- The battery block of `check_anomaly` (lines 39-47): reads
`thresholds["battery"]["min"]` unconditionally when both keys are present;
severity is `high` when `battery < 10`, else `medium`. -/
def batteryEval (t : TelemetryData) (th : ThresholdConfig) :
    Except Unit (List AnomalyCandidate) :=
  match t.battery, th.battery with
  | some battery, some b =>
    match b.min with
    | none => .error ()
    | some mn =>
      if battery < mn then
        .ok [⟨.LOW_BATTERY, battery, mn, if battery < 10 then .high else .medium⟩]
      else .ok []
  | _, _ => .ok []

/-- The signal-strength block of `check_anomaly` (lines 49-57): reads
`thresholds["signal_strength"]["min"]` unconditionally when both keys are
present. -/
def signalEval (t : TelemetryData) (th : ThresholdConfig) :
    Except Unit (List AnomalyCandidate) :=
  match t.signal_strength, th.signal_strength with
  | some signal, some b =>
    match b.min with
    | none => .error ()
    | some mn =>
      if signal < mn then .ok [⟨.WEAK_SIGNAL, signal, mn, .medium⟩]
      else .ok []
  | _, _ => .ok []

/-- The full `anomalies_detected` accumulation of `check_anomaly`: the three
metric blocks run in source order, and a `KeyError` in any block aborts the
whole function body (the save loop is never reached), which `Except` bind
models exactly. -/
def evalMetrics (t : TelemetryData) (th : ThresholdConfig) :
    Except Unit (List AnomalyCandidate) := do
  let a ← tempEval t th
  let b ← batteryEval t th
  let c ← signalEval t th
  return a ++ b ++ c

/-- A registered device (`models/device.py`), restricted to the fields the
ingestion pipeline and evaluator read or write. -/
structure Device where
  device_id : String
  status : DeviceStatus
  last_seen : ℚ
  threshold_config : Option ThresholdConfig
deriving DecidableEq, Repr

/-- Observable outcome of one `check_anomaly` call: the anomalies persisted
(and, one-for-one, broadcast as `anomaly` events by the save loop), and
whether the outer `except` branch ran (printing the error). -/
structure CheckResult where
  persisted : List AnomalyCandidate
  errorLogged : Bool
deriving DecidableEq, Repr

/-- `check_anomaly(telemetry_data, db)` as a function of the looked-up device
(`none` models a device row absent from the db).  Early return when the
device is missing, its `threshold_config` is SQL `NULL` (`none`) or a falsy
empty dict; otherwise the three metric blocks run and their candidates are
persisted and broadcast, unless a `KeyError` aborts the body, in which case
nothing is persisted and the error is printed. -/
def check_anomaly (t : TelemetryData) (device : Option Device) : CheckResult :=
  match device with
  | none => ⟨[], false⟩
  | some d =>
    match d.threshold_config with
    | none => ⟨[], false⟩
    | some th =>
      if th.isEmpty then ⟨[], false⟩
      else
        match evalMetrics t th with
        | .ok l => ⟨l, false⟩
        | .error _ => ⟨[], true⟩

/-- A persisted `Telemetry` row: the submitted data plus the server-assigned
timestamp (`datetime.utcnow()` at submission). -/
structure StoredTelemetry where
  data : TelemetryData
  timestamp : ℚ
deriving DecidableEq, Repr

/-- The server state touched by `submit_telemetry`: the device table, the
telemetry table, the trace of payloads handed to `broadcast_telemetry`, and
the trace of payloads passed to `background_tasks.add_task(check_anomaly, ·)`. -/
structure ServerState where
  devices : List Device
  telemetry : List StoredTelemetry
  broadcasts : List TelemetryData
  tasks : List TelemetryData
deriving DecidableEq, Repr

/-- The error raised by `submit_telemetry` (HTTP 404 "Device not found"). -/
inductive SubmitError where
  | DeviceNotFound
deriving DecidableEq, Repr

/-- The row mutation `device.status = ONLINE; device.last_seen = now`
applied to the device table: the rows whose `device_id` matches are updated,
the rest are untouched. -/
def updateDevices (now : ℚ) (t : TelemetryData) (ds : List Device) : List Device :=
  ds.map (fun d =>
    if d.device_id == t.device_id then
      { d with status := .ONLINE, last_seen := now }
    else d)

/-- `submit_telemetry` (routes/telemetry.py lines 16-47) with the wall clock
`datetime.utcnow()` passed in as `now`: look up the device by `device_id`; if
absent raise 404 with the state untouched; otherwise persist the sample, set
the device's `status` to `ONLINE` and `last_seen` to `now`, broadcast the
payload, enqueue the background `check_anomaly` task, and return the stored
row. -/
def submit_telemetry (now : ℚ) (t : TelemetryData) (s : ServerState) :
    Except SubmitError StoredTelemetry × ServerState :=
  match s.devices.find? (fun d => d.device_id == t.device_id) with
  | none => (.error .DeviceNotFound, s)
  | some _ =>
    let stored : StoredTelemetry := ⟨t, now⟩
    (.ok stored,
      { devices := updateDevices now t s.devices,
        telemetry := s.telemetry ++ [stored],
        broadcasts := s.broadcasts ++ [t],
        tasks := s.tasks ++ [t] })

/-- A persisted `Anomaly` row (`models/telemetry.py`); `resolved` is the
string column the code writes, `"false"` at creation, `"true"` on resolve. -/
structure Anomaly where
  id : ℕ
  device_id : String
  anomaly_type : AnomalyType
  severity : Severity
  resolved : String
deriving DecidableEq, Repr

/-- The mutation `anomaly.resolved = "true"` applied to the first row
matching the id, as `query(...).first()` selects it. -/
def resolveFirst : List Anomaly → ℕ → List Anomaly
  | [], _ => []
  | a :: rest, i =>
    if a.id = i then { a with resolved := "true" } :: rest
    else a :: resolveFirst rest i

/-- `resolve_anomaly` (routes/telemetry.py lines 122-137): find the anomaly
by id; if absent raise 404 leaving the store unchanged; otherwise set its
`resolved` column to `"true"` and succeed. -/
def resolve_anomaly (s : List Anomaly) (i : ℕ) :
    Except String Unit × List Anomaly :=
  match s.find? (fun a => a.id == i) with
  | none => (.error "Anomaly not found", s)
  | some _ => (.ok (), resolveFirst s i)

/-- The WebSocket `ConnectionManager` (routes/websocket.py): a plain list of
live connection handles, over an abstract handle type. -/
structure ConnectionManager (H : Type) where
  active_connections : List H
deriving DecidableEq, Repr

/-- Python `list.remove`: delete the first occurrence of `x` (no-op when
absent, matching the `if websocket in ...` guard around the call). -/
def listRemove {H : Type} [DecidableEq H] : List H → H → List H
  | [], _ => []
  | a :: rest, x => if a = x then rest else a :: listRemove rest x

/-- `ConnectionManager.connect`: `accept()` then unconditionally
`active_connections.append(websocket)`. -/
def ConnectionManager.connect {H : Type} (m : ConnectionManager H) (h : H) :
    ConnectionManager H :=
  ⟨m.active_connections ++ [h]⟩

/-- `ConnectionManager.disconnect`: remove the handle if present, else do
nothing. -/
def ConnectionManager.disconnect {H : Type} [DecidableEq H]
    (m : ConnectionManager H) (h : H) : ConnectionManager H :=
  if h ∈ m.active_connections then ⟨listRemove m.active_connections h⟩
  else m

/-- `ConnectionManager.broadcast` (lines 26-36), with `send_text` failure
abstracted by the predicate `fails`: the loop attempts delivery to every
handle in order, collecting failures; the first component is the trace of
handles whose delivery succeeded, and afterwards each collected failure is
disconnected. -/
def ConnectionManager.broadcast {H : Type} [DecidableEq H]
    (m : ConnectionManager H) (fails : H → Bool) :
    List H × ConnectionManager H :=
  (m.active_connections.filter (fun c => !(fails c)),
   (m.active_connections.filter (fun c => fails c)).foldl
     (fun mgr c => mgr.disconnect c) m)

/-- A sequence of calls to the threshold evaluator, used to state that the
result at each position depends only on that call's own arguments. -/
def evalSeq (calls : List (TelemetryData × ThresholdConfig)) :
    List (Except Unit (List AnomalyCandidate)) :=
  calls.map (fun c => evalMetrics c.1 c.2)

instance {ε α : Type} [DecidableEq ε] [DecidableEq α] : DecidableEq (Except ε α) :=
  fun a b =>
    match a, b with
    | .ok x, .ok y =>
      if h : x = y then .isTrue (by rw [h]) else .isFalse (by simp [h])
    | .error x, .error y =>
      if h : x = y then .isTrue (by rw [h]) else .isFalse (by simp [h])
    | .ok _, .error _ => .isFalse (by simp)
    | .error _, .ok _ => .isFalse (by simp)

/-- Modelled from the spec: the §4.3 rule table's first row read literally as
an independent rule — `temperature > max` yields `HIGH_TEMPERATURE` with
severity `high`. -/
def ruleHighTemp (t : TelemetryData) (th : ThresholdConfig) :
    List AnomalyCandidate :=
  match t.temperature, th.temperature with
  | some v, some b =>
    match b.max with
    | some mx => if v > mx then [⟨.HIGH_TEMPERATURE, v, mx, .high⟩] else []
    | none => []
  | _, _ => []

/-- Modelled from the spec: the §4.3 rule table's second row read literally
as an independent rule — `temperature < min` yields `LOW_TEMPERATURE` with
severity `medium`, regardless of the max bound. -/
def ruleLowTempIndep (t : TelemetryData) (th : ThresholdConfig) :
    List AnomalyCandidate :=
  match t.temperature, th.temperature with
  | some v, some b =>
    match b.min with
    | some mn => if v < mn then [⟨.LOW_TEMPERATURE, v, mn, .medium⟩] else []
    | none => []
  | _, _ => []

/-- The second temperature row as the code actually guards it: the `elif`
reaches the min comparison only when the configured max is not exceeded. -/
def ruleLowTempGuarded (t : TelemetryData) (th : ThresholdConfig) :
    List AnomalyCandidate :=
  match t.temperature, th.temperature with
  | some v, some b =>
    match b.max, b.min with
    | some mx, some mn =>
      if ¬ v > mx ∧ v < mn then [⟨.LOW_TEMPERATURE, v, mn, .medium⟩] else []
    | _, _ => []
  | _, _ => []

/-- Modelled from the spec: the §4.3 battery row — `battery < min` yields
`LOW_BATTERY`, severity `high` when `battery < 10`, else `medium`. -/
def ruleLowBattery (t : TelemetryData) (th : ThresholdConfig) :
    List AnomalyCandidate :=
  match t.battery, th.battery with
  | some v, some b =>
    match b.min with
    | some mn =>
      if v < mn then [⟨.LOW_BATTERY, v, mn, if v < 10 then .high else .medium⟩]
      else []
    | none => []
  | _, _ => []

/-- Modelled from the spec: the §4.3 signal-strength row —
`signal_strength < min` yields `WEAK_SIGNAL` with severity `medium`. -/
def ruleWeakSignal (t : TelemetryData) (th : ThresholdConfig) :
    List AnomalyCandidate :=
  match t.signal_strength, th.signal_strength with
  | some v, some b =>
    match b.min with
    | some mn => if v < mn then [⟨.WEAK_SIGNAL, v, mn, .medium⟩] else []
    | none => []
  | _, _ => []

/-- Modelled from the spec: the full §4.3 rule table with all four rows
independent, in table order. -/
def ruleTableCandidates (t : TelemetryData) (th : ThresholdConfig) :
    List AnomalyCandidate :=
  ruleHighTemp t th ++ ruleLowTempIndep t th ++ ruleLowBattery t th ++
    ruleWeakSignal t th

/-- The rule table with the low-temperature row guarded by the max bound as
the code's `elif` does; the other three rows are unchanged. -/
def ruleTableCandidatesGuarded (t : TelemetryData) (th : ThresholdConfig) :
    List AnomalyCandidate :=
  ruleHighTemp t th ++ ruleLowTempGuarded t th ++ ruleLowBattery t th ++
    ruleWeakSignal t th

/-- Whether a candidate list contains a `LOW_TEMPERATURE` entry. -/
def hasLowTemp (l : List AnomalyCandidate) : Bool :=
  l.any (fun c => c.type == .LOW_TEMPERATURE)

/-- Concrete inputs for the partial-bound evaluation: temperature config has
only a min, battery is below its configured min. -/
def c2_sample : TelemetryData := ⟨"dev-1", some 50, some 5, none, none, none, none⟩

def c2_config : ThresholdConfig := ⟨some ⟨some 0, none⟩, some ⟨some 20, none⟩, none⟩

def c2_device : Device := ⟨"dev-1", .OFFLINE, 0, some c2_config⟩

/-- Concrete inputs for the rule-table comparison: min 60 above max 40, with
the sampled temperature 50 between them. -/
def c3_sample : TelemetryData := ⟨"dev-2", some 50, none, none, none, none, none⟩

def c3_config : ThresholdConfig := ⟨some ⟨some 60, some 40⟩, none, none⟩

/-- Concrete inputs with both temperature conditions holding at once:
temperature 0 exceeds max -5 and is below min 10. -/
def c10_sample : TelemetryData := ⟨"dev-3", some 0, none, none, none, none, none⟩

def c10_config : ThresholdConfig := ⟨some ⟨some 10, some (-5)⟩, none, none⟩

/-- C9: a device whose threshold configuration is entirely absent (SQL NULL,
or the falsy empty dict) evaluates to an empty candidate list for any metric
values: nothing is persisted or broadcast, and no error is raised or logged
as a failure. -/
theorem check_anomaly_empty_config_no_candidates (t : TelemetryData) (d : Device) :
    (d.threshold_config = none → check_anomaly t (some d) = ⟨[], false⟩) ∧
    (∀ th : ThresholdConfig, d.threshold_config = some th → th.isEmpty = true →
      check_anomaly t (some d) = ⟨[], false⟩) := by
  constructor
  · intro h
    simp [check_anomaly, h]
  · intro th h hemp
    simp [check_anomaly, h, hemp]

theorem check_anomaly_empty_config_no_candidates_witness :
    check_anomaly ⟨"dev", some 999, some 0, some (-200), none, none, none⟩
      (some ⟨"dev", .OFFLINE, 0, none⟩) = ⟨[], false⟩ ∧
    check_anomaly ⟨"dev", some 999, some 0, some (-200), none, none, none⟩
      (some ⟨"dev", .OFFLINE, 0, some ⟨none, none, none⟩⟩) = ⟨[], false⟩ :=
  ⟨(check_anomaly_empty_config_no_candidates _ _).1 rfl,
   (check_anomaly_empty_config_no_candidates _ _).2 ⟨none, none, none⟩ rfl rfl⟩

/-- C1: a submission whose `device_id` matches no registered device fails
with `DeviceNotFound` and leaves the whole server state unchanged: no
telemetry row, no device-table change, no broadcast, no background
evaluation dispatch. -/
theorem submit_unknown_device_no_side_effect (now : ℚ) (t : TelemetryData)
    (s : ServerState) (h : ∀ d ∈ s.devices, d.device_id ≠ t.device_id) :
    submit_telemetry now t s = (.error .DeviceNotFound, s) := by
  have hf : s.devices.find? (fun d => d.device_id == t.device_id) = none := by
    rw [List.find?_eq_none]
    intro d hd
    simpa using h d hd
  simp [submit_telemetry, hf]

theorem submit_unknown_device_no_side_effect_witness :
    submit_telemetry 1 ⟨"ghost", some 1, none, none, none, none, none⟩
      ⟨[⟨"dev", .WARNING, 0, none⟩], [], [], []⟩ =
      (.error .DeviceNotFound, ⟨[⟨"dev", .WARNING, 0, none⟩], [], [], []⟩) :=
  submit_unknown_device_no_side_effect 1 _ _ (by decide)

/-- C7: threshold evaluation is a pure function of the sample and the
threshold configuration: in any two call sequences, positions carrying the
same arguments produce the same result, regardless of position (call order)
and of the other calls in the sequence. -/
theorem evalMetrics_pure_of_inputs
    (calls1 calls2 : List (TelemetryData × ThresholdConfig)) (i j : ℕ)
    (c : TelemetryData × ThresholdConfig)
    (h1 : calls1[i]? = some c) (h2 : calls2[j]? = some c) :
    (evalSeq calls1)[i]? = (evalSeq calls2)[j]? := by
  simp [evalSeq, List.getElem?_map, h1, h2]

theorem evalMetrics_pure_of_inputs_witness :
    (evalSeq [(⟨"a", some 1, none, none, none, none, none⟩, ⟨none, none, none⟩)])[0]? =
    (evalSeq [(⟨"b", none, none, none, none, none, none⟩, ⟨some ⟨none, none⟩, none, none⟩),
              (⟨"a", some 1, none, none, none, none, none⟩, ⟨none, none, none⟩)])[1]? :=
  evalMetrics_pure_of_inputs _ _ 0 1
    (⟨"a", some 1, none, none, none, none, none⟩, ⟨none, none, none⟩) rfl rfl

/-- C8 counterexample: `connect` appends unconditionally, so connecting a
handle already in the live set duplicates it instead of leaving the set
unchanged. -/
theorem connect_duplicates_existing_handle :
    (ConnectionManager.connect ⟨[0]⟩ 0 : ConnectionManager ℕ) ≠ ⟨[0]⟩ ∧
    (ConnectionManager.connect ⟨[0]⟩ 0 : ConnectionManager ℕ).active_connections
      = [0, 0] := by
  decide

/-- C8 amended: `disconnect` of a handle not in the live set leaves the set
unchanged without error, but `connect` always appends, so re-connecting an
already-present handle adds a duplicate entry. -/
theorem disconnect_idempotent_connect_appends {H : Type} [DecidableEq H]
    (m : ConnectionManager H) (h : H) :
    (h ∉ m.active_connections → m.disconnect h = m) ∧
    (m.connect h).active_connections = m.active_connections ++ [h] := by
  constructor
  · intro hm
    simp [ConnectionManager.disconnect, hm]
  · rfl

theorem disconnect_idempotent_connect_appends_witness :
    ((ConnectionManager.mk [1] : ConnectionManager ℕ).disconnect 0 = ⟨[1]⟩) ∧
    ((ConnectionManager.mk [1] : ConnectionManager ℕ).connect 2).active_connections
      = [1, 2] :=
  ⟨(disconnect_idempotent_connect_appends ⟨[1]⟩ 0).1 (by decide),
   (disconnect_idempotent_connect_appends ⟨[1]⟩ 2).2⟩

/-- C2 counterexample: battery 5 is below its configured min 20, yet because
the temperature entry lacks a `"max"` key the `KeyError` aborts the whole
evaluation — battery is never evaluated, nothing is persisted, and the error
branch runs, contradicting "skipped without error, remaining metrics still
evaluated". -/
theorem partial_bound_aborts_evaluation :
    c2_sample.battery = some 5 ∧ c2_config.battery = some ⟨some 20, none⟩ ∧
    (5 : ℚ) < 20 ∧
    evalMetrics c2_sample c2_config = .error () ∧
    check_anomaly c2_sample (some c2_device) = ⟨[], true⟩ := by
  decide

/-- C3 counterexample: with min 60 above max 40 and temperature 50, the
literal rule table produces both temperature candidates but the code's
`elif` produces only `HIGH_TEMPERATURE`, so the candidate list does not
match the table read as independent rows. -/
theorem rule_table_literal_mismatch :
    ruleTableCandidates c3_sample c3_config =
      [⟨.HIGH_TEMPERATURE, 50, 40, .high⟩, ⟨.LOW_TEMPERATURE, 50, 60, .medium⟩] ∧
    evalMetrics c3_sample c3_config = .ok [⟨.HIGH_TEMPERATURE, 50, 40, .high⟩] ∧
    evalMetrics c3_sample c3_config ≠ .ok (ruleTableCandidates c3_sample c3_config) := by
  decide

/-- C10 counterexample: at temperature 0 with max -5 and min 10 both
temperature conditions hold, yet the evaluation produces only the
`HIGH_TEMPERATURE` candidate and no `LOW_TEMPERATURE` one. -/
theorem overlap_fires_high_only_counterexample :
    ((0 : ℚ) > -5 ∧ (0 : ℚ) < 10) ∧
    c10_config.temperature = some ⟨some 10, some (-5)⟩ ∧
    evalMetrics c10_sample c10_config = .ok [⟨.HIGH_TEMPERATURE, 0, -5, .high⟩] ∧
    hasLowTemp [⟨.HIGH_TEMPERATURE, 0, -5, .high⟩] = false := by
  decide

theorem mem_updateDevices_online (now : ℚ) (t : TelemetryData) (ds : List Device) :
    ∀ d ∈ updateDevices now t ds, d.device_id = t.device_id →
      d.status = .ONLINE ∧ d.last_seen = now := by
  intro d hd hdid
  simp only [updateDevices] at hd
  rcases List.mem_map.1 hd with ⟨a, _, rfl⟩
  by_cases hc : a.device_id = t.device_id
  · simp [hc]
  · rw [show (a.device_id == t.device_id) = false by simpa using hc] at hdid ⊢
    simp only [if_neg Bool.false_ne_true, Bool.false_eq_true, if_false] at hdid
    exact absurd hdid hc

theorem updateDevices_keeps_id (now : ℚ) (t : TelemetryData) (ds : List Device)
    (d0 : Device) (hd0 : d0 ∈ ds) (hid : d0.device_id = t.device_id) :
    ∃ d ∈ updateDevices now t ds, d.device_id = t.device_id := by
  by_cases hc : (d0.device_id == t.device_id) = true
  · exact ⟨{ d0 with status := .ONLINE, last_seen := now },
      List.mem_map.2 ⟨d0, hd0, by simp [updateDevices, hc]⟩, hid⟩
  · exact absurd (by simpa using hid) hc

theorem submit_found (now : ℚ) (t : TelemetryData) (s : ServerState)
    (d0 : Device) (hd0 : d0 ∈ s.devices) (hid : d0.device_id = t.device_id) :
    submit_telemetry now t s =
      (.ok ⟨t, now⟩,
       ⟨updateDevices now t s.devices, s.telemetry ++ [⟨t, now⟩],
        s.broadcasts ++ [t], s.tasks ++ [t]⟩) := by
  have hs : (s.devices.find? (fun d => d.device_id == t.device_id)).isSome := by
    rw [List.find?_isSome]
    exact ⟨d0, hd0, by simp [hid]⟩
  cases hfind : s.devices.find? (fun d => d.device_id == t.device_id) with
  | none => rw [hfind] at hs; simp at hs
  | some d' => simp [submit_telemetry, hfind]

/-- C4: a successful submission for a known device sets its status to ONLINE
and its last-seen to the submission time, whatever the prior state; across
two serial submissions at non-decreasing wall-clock times both succeed and
the device's last-seen is non-decreasing. -/
theorem submit_known_device_sets_online_lastseen (now1 now2 : ℚ)
    (t : TelemetryData) (s : ServerState) (d0 : Device) (hd0 : d0 ∈ s.devices)
    (hid : d0.device_id = t.device_id) (hle : now1 ≤ now2) :
    (submit_telemetry now1 t s).1 = .ok ⟨t, now1⟩ ∧
    (submit_telemetry now2 t (submit_telemetry now1 t s).2).1 = .ok ⟨t, now2⟩ ∧
    (∀ d ∈ ((submit_telemetry now1 t s).2).devices, d.device_id = t.device_id →
      d.status = .ONLINE ∧ d.last_seen = now1) ∧
    (∀ d ∈ ((submit_telemetry now2 t (submit_telemetry now1 t s).2).2).devices,
      d.device_id = t.device_id → d.status = .ONLINE ∧ d.last_seen = now2) ∧
    (∀ d1 ∈ ((submit_telemetry now1 t s).2).devices,
     ∀ d2 ∈ ((submit_telemetry now2 t (submit_telemetry now1 t s).2).2).devices,
      d1.device_id = t.device_id → d2.device_id = t.device_id →
      d1.last_seen ≤ d2.last_seen) := by
  have h1 := submit_found now1 t s d0 hd0 hid
  obtain ⟨d1, hd1, hd1id⟩ := updateDevices_keeps_id now1 t s.devices d0 hd0 hid
  have h2 := submit_found now2 t (submit_telemetry now1 t s).2 d1 (by rw [h1]; exact hd1) hd1id
  refine ⟨by rw [h1], by rw [h2], ?_, ?_, ?_⟩
  · rw [h1]
    exact mem_updateDevices_online now1 t s.devices
  · rw [h2]
    intro d hd hdid
    rw [h1] at hd
    exact mem_updateDevices_online now2 t _ d hd hdid
  · intro a ha b hb haid hbid
    have hA : a.last_seen = now1 := by
      rw [h1] at ha
      exact (mem_updateDevices_online now1 t _ a ha haid).2
    have hB : b.last_seen = now2 := by
      rw [h2] at hb
      rw [h1] at hb
      exact (mem_updateDevices_online now2 t _ b hb hbid).2
    rw [hA, hB]
    exact hle

theorem submit_known_device_sets_online_lastseen_witness :
    ((submit_telemetry 3 ⟨"dev", some 1, none, none, none, none, none⟩
        ⟨[⟨"dev", .ERROR, 0, none⟩], [], [], []⟩).2).devices
      = [⟨"dev", .ONLINE, 3, none⟩] ∧
    (submit_telemetry 3 ⟨"dev", some 1, none, none, none, none, none⟩
        ⟨[⟨"dev", .ERROR, 0, none⟩], [], [], []⟩).1
      = .ok ⟨⟨"dev", some 1, none, none, none, none, none⟩, 3⟩ ∧
    (submit_telemetry 7 ⟨"dev", some 1, none, none, none, none, none⟩
        (submit_telemetry 3 ⟨"dev", some 1, none, none, none, none, none⟩
          ⟨[⟨"dev", .ERROR, 0, none⟩], [], [], []⟩).2).1
      = .ok ⟨⟨"dev", some 1, none, none, none, none, none⟩, 7⟩ :=
  ⟨by decide,
   (submit_known_device_sets_online_lastseen 3 7
      ⟨"dev", some 1, none, none, none, none, none⟩
      ⟨[⟨"dev", .ERROR, 0, none⟩], [], [], []⟩ ⟨"dev", .ERROR, 0, none⟩
      (by decide) (by decide) (by norm_num)).1,
   (submit_known_device_sets_online_lastseen 3 7
      ⟨"dev", some 1, none, none, none, none, none⟩
      ⟨[⟨"dev", .ERROR, 0, none⟩], [], [], []⟩ ⟨"dev", .ERROR, 0, none⟩
      (by decide) (by decide) (by norm_num)).2.1⟩

theorem resolveFirst_find? (s : List Anomaly) (i : ℕ) :
    (resolveFirst s i).find? (fun a => a.id == i) =
      (s.find? (fun a => a.id == i)).map
        (fun a => { a with resolved := "true" }) := by
  induction s with
  | nil => rfl
  | cons x rest ih =>
    by_cases h : x.id = i
    · simp [resolveFirst, h]
    · simp [resolveFirst, h, ih]

theorem resolveFirst_idem (s : List Anomaly) (i : ℕ) :
    resolveFirst (resolveFirst s i) i = resolveFirst s i := by
  induction s with
  | nil => rfl
  | cons x rest ih =>
    by_cases h : x.id = i
    · simp [resolveFirst, h]
    · simp [resolveFirst, h, ih]

theorem mem_resolveFirst_of_ne (s : List Anomaly) (i : ℕ) :
    ∀ a ∈ resolveFirst s i, a.id ≠ i → a ∈ s := by
  induction s with
  | nil => intro a ha; simp [resolveFirst] at ha
  | cons x rest ih =>
    intro a ha hne
    by_cases h : x.id = i
    · simp [resolveFirst, h] at ha
      rcases ha with ha | ha
      · rw [ha] at hne; simp [h] at hne
      · exact List.mem_cons_of_mem x ha
    · simp [resolveFirst, h] at ha
      rcases ha with ha | ha
      · rw [ha]; exact List.mem_cons_self x rest
      · exact List.mem_cons_of_mem x (ih a ha hne)

theorem resolveFirst_resolved (s : List Anomaly) (i : ℕ)
    (hnd : (s.map (fun a => a.id)).Nodup) :
    ∀ a ∈ resolveFirst s i, a.id = i → a.resolved = "true" := by
  induction s with
  | nil => intro a ha; simp [resolveFirst] at ha
  | cons x rest ih =>
    rw [List.map_cons, List.nodup_cons] at hnd
    intro a ha hai
    by_cases h : x.id = i
    · simp [resolveFirst, h] at ha
      rcases ha with ha | ha
      · rw [ha]
      · exfalso
        apply hnd.1
        have hm : a.id ∈ rest.map (fun a => a.id) := List.mem_map.2 ⟨a, ha, rfl⟩
        rw [hai, ← h] at hm
        exact hm
    · simp [resolveFirst, h] at ha
      rcases ha with ha | ha
      · rw [ha] at hai; exact absurd hai h
      · exact ih hnd.2 a ha hai

/-- C6: resolving an unknown anomaly id fails with "Anomaly not found" and
changes no stored anomaly; resolving an existing id succeeds and sets its
resolved flag, leaves every other anomaly in the store, and a second resolve
of the same id succeeds and changes nothing (idempotent no-op). -/
theorem resolve_anomaly_notfound_and_idempotent (s : List Anomaly) (i : ℕ)
    (hnd : (s.map (fun a => a.id)).Nodup) :
    (s.find? (fun a => a.id == i) = none →
      resolve_anomaly s i = (.error "Anomaly not found", s)) ∧
    ((s.find? (fun a => a.id == i)).isSome →
      (resolve_anomaly s i).1 = .ok () ∧
      (∀ a ∈ (resolve_anomaly s i).2, a.id = i → a.resolved = "true") ∧
      (∀ a ∈ (resolve_anomaly s i).2, a.id ≠ i → a ∈ s) ∧
      resolve_anomaly (resolve_anomaly s i).2 i =
        (.ok (), (resolve_anomaly s i).2)) := by
  constructor
  · intro h
    simp [resolve_anomaly, h]
  · intro h
    obtain ⟨a0, ha0⟩ := Option.isSome_iff_exists.1 h
    have hres : resolve_anomaly s i = (.ok (), resolveFirst s i) := by
      simp [resolve_anomaly, ha0]
    refine ⟨by rw [hres], ?_, ?_, ?_⟩
    · rw [hres]
      exact resolveFirst_resolved s i hnd
    · rw [hres]
      exact mem_resolveFirst_of_ne s i
    · rw [hres]
      have hfind2 : (resolveFirst s i).find? (fun a => a.id == i) =
          some { a0 with resolved := "true" } := by
        rw [resolveFirst_find?, ha0]
        rfl
      simp [resolve_anomaly, hfind2, resolveFirst_idem]

theorem resolve_anomaly_notfound_and_idempotent_witness :
    resolve_anomaly [(⟨1, "dev", .LOW_BATTERY, .high, "false"⟩ : Anomaly)] 2 =
      (.error "Anomaly not found", [⟨1, "dev", .LOW_BATTERY, .high, "false"⟩]) ∧
    (resolve_anomaly [(⟨1, "dev", .LOW_BATTERY, .high, "false"⟩ : Anomaly)] 1).1
      = .ok () ∧
    resolve_anomaly
        (resolve_anomaly [(⟨1, "dev", .LOW_BATTERY, .high, "false"⟩ : Anomaly)] 1).2 1 =
      (.ok (),
       (resolve_anomaly [(⟨1, "dev", .LOW_BATTERY, .high, "false"⟩ : Anomaly)] 1).2) :=
  ⟨(resolve_anomaly_notfound_and_idempotent
      [⟨1, "dev", .LOW_BATTERY, .high, "false"⟩] 2 (by decide)).1 (by decide),
   ((resolve_anomaly_notfound_and_idempotent
      [⟨1, "dev", .LOW_BATTERY, .high, "false"⟩] 1 (by decide)).2 (by decide)).1,
   (((resolve_anomaly_notfound_and_idempotent
      [⟨1, "dev", .LOW_BATTERY, .high, "false"⟩] 1 (by decide)).2 (by decide)).2).2.2⟩

theorem filter_eq_single {H : Type} [DecidableEq H] (l : List H) (f : H)
    (hnd : l.Nodup) (hmem : f ∈ l) :
    l.filter (fun c => decide (c = f)) = [f] := by
  induction l with
  | nil => simp at hmem
  | cons x rest ih =>
    rw [List.nodup_cons] at hnd
    by_cases h : x = f
    · subst h
      have hrest : rest.filter (fun c => decide (c = x)) = [] := by
        rw [List.filter_eq_nil_iff]
        intro a ha
        simp only [decide_eq_true_eq]
        intro heq
        rw [heq] at ha
        exact hnd.1 ha
      simp [List.filter_cons, hrest]
    · have hf : f ∈ rest := by
        rcases List.mem_cons.1 hmem with h' | h'
        · exact absurd h'.symm h
        · exact h'
      simp [List.filter_cons, h, ih hnd.2 hf]

theorem not_mem_listRemove {H : Type} [DecidableEq H] (l : List H) (f : H)
    (hnd : l.Nodup) : f ∉ listRemove l f := by
  induction l with
  | nil => simp [listRemove]
  | cons x rest ih =>
    rw [List.nodup_cons] at hnd
    by_cases h : x = f
    · subst h
      simpa [listRemove] using hnd.1
    · simp only [listRemove, if_neg h, List.mem_cons, not_or]
      exact ⟨fun heq => h heq.symm, ih hnd.2⟩

theorem filter_ne_eq_listRemove {H : Type} [DecidableEq H] (l : List H) (f : H)
    (hnd : l.Nodup) :
    l.filter (fun c => !decide (c = f)) = listRemove l f := by
  induction l with
  | nil => rfl
  | cons x rest ih =>
    rw [List.nodup_cons] at hnd
    by_cases h : x = f
    · subst h
      have hrest : rest.filter (fun c => !decide (c = x)) = rest := by
        rw [List.filter_eq_self]
        intro a ha
        simp only [Bool.not_eq_true', decide_eq_false_iff_not]
        intro heq
        rw [heq] at ha
        exact hnd.1 ha
      simp [listRemove, List.filter_cons, hrest]
    · simp [listRemove, List.filter_cons, h, ih hnd.2]

theorem length_listRemove {H : Type} [DecidableEq H] (l : List H) (f : H)
    (hmem : f ∈ l) : (listRemove l f).length = l.length - 1 := by
  induction l with
  | nil => simp at hmem
  | cons x rest ih =>
    by_cases h : x = f
    · simp [listRemove, h]
    · rcases List.mem_cons.1 hmem with h' | h'
      · exact absurd h'.symm h
      · have hpos : 0 < rest.length := List.length_pos.2 (List.ne_nil_of_mem h')
        simp only [listRemove, if_neg h, List.length_cons, ih h']
        omega

/-- C5: broadcasting over a subscriber set in which exactly one handle fails:
every other handle still receives the message, the failing handle does not,
the delivered count is N-1, the failing handle is removed from the live set,
and a subsequent broadcast delivers exactly to the remaining handles. -/
theorem broadcast_isolates_failed_subscriber {H : Type} [DecidableEq H]
    (m : ConnectionManager H) (f : H) (hmem : f ∈ m.active_connections)
    (hnd : m.active_connections.Nodup) :
    (∀ c ∈ m.active_connections, c ≠ f →
      c ∈ (m.broadcast (fun c => decide (c = f))).1) ∧
    f ∉ (m.broadcast (fun c => decide (c = f))).1 ∧
    ((m.broadcast (fun c => decide (c = f))).1).length
      = m.active_connections.length - 1 ∧
    ((m.broadcast (fun c => decide (c = f))).2).active_connections
      = listRemove m.active_connections f ∧
    f ∉ ((m.broadcast (fun c => decide (c = f))).2).active_connections ∧
    (((m.broadcast (fun c => decide (c = f))).2).broadcast (fun _ => false)).1
      = ((m.broadcast (fun c => decide (c = f))).2).active_connections := by
  have hfirst : (m.broadcast (fun c => decide (c = f))).1
      = m.active_connections.filter (fun c => !decide (c = f)) := rfl
  have hsecond : ((m.broadcast (fun c => decide (c = f))).2).active_connections
      = listRemove m.active_connections f := by
    show ((m.active_connections.filter (fun c => decide (c = f))).foldl
      (fun mgr c => mgr.disconnect c) m).active_connections = _
    rw [filter_eq_single m.active_connections f hnd hmem]
    simp [ConnectionManager.disconnect, hmem]
  refine ⟨?_, ?_, ?_, hsecond, ?_, ?_⟩
  · intro c hc hne
    rw [hfirst]
    exact List.mem_filter.2 ⟨hc, by simp [hne]⟩
  · rw [hfirst]
    intro hcontra
    have := (List.mem_filter.1 hcontra).2
    simp at this
  · rw [hfirst, filter_ne_eq_listRemove m.active_connections f hnd]
    exact length_listRemove m.active_connections f hmem
  · rw [hsecond]
    exact not_mem_listRemove m.active_connections f hnd
  · show ((m.broadcast (fun c => decide (c = f))).2).active_connections.filter
        (fun c => !false) = _
    simp

theorem broadcast_isolates_failed_subscriber_witness :
    (1 ∈ ((ConnectionManager.mk [1, 2, 3] : ConnectionManager ℕ).broadcast
        (fun c => decide (c = 2))).1) ∧
    ((ConnectionManager.mk [1, 2, 3] : ConnectionManager ℕ).broadcast
        (fun c => decide (c = 2))).2.active_connections = [1, 3] :=
  ⟨(broadcast_isolates_failed_subscriber ⟨[1, 2, 3]⟩ 2 (by decide) (by decide)).1
      1 (by decide) (by decide),
   ((broadcast_isolates_failed_subscriber ⟨[1, 2, 3]⟩ 2 (by decide)
      (by decide)).2.2.2.1).trans (by decide)⟩

theorem exceptBind_ok {ε α β : Type} (a : α) (k : α → Except ε β) :
    (Except.ok a >>= k) = k a := rfl

theorem exceptBind_err {ε α β : Type} (e : ε) (k : α → Except ε β) :
    ((Except.error e : Except ε α) >>= k) = .error e := rfl

/-- C2 amended: a metric absent from the sample, or whose metric key is
entirely absent from the threshold config, is skipped without error and the
remaining metrics are still evaluated (the evaluation equals that of the
remaining metrics alone); a configured metric entry that lacks a bound the
code reads instead raises a KeyError that aborts all remaining metrics. -/
theorem absent_metric_skipped_rest_evaluated (t : TelemetryData)
    (th : ThresholdConfig) :
    ((t.temperature = none ∨ th.temperature = none) →
      tempEval t th = .ok [] ∧
      evalMetrics t th = (do
        let b ← batteryEval t th
        let c ← signalEval t th
        return b ++ c)) ∧
    ((t.battery = none ∨ th.battery = none) →
      batteryEval t th = .ok [] ∧
      evalMetrics t th = (do
        let a ← tempEval t th
        let c ← signalEval t th
        return a ++ c)) ∧
    ((t.signal_strength = none ∨ th.signal_strength = none) →
      signalEval t th = .ok [] ∧
      evalMetrics t th = (do
        let a ← tempEval t th
        let b ← batteryEval t th
        return a ++ b)) := by
  refine ⟨?_, ?_, ?_⟩
  · intro h
    have ht : tempEval t th = .ok [] := by
      rcases h with h | h
      · cases hth : th.temperature <;> simp [tempEval, h, hth]
      · cases htt : t.temperature <;> simp [tempEval, htt, h]
    refine ⟨ht, ?_⟩
    unfold evalMetrics
    rw [ht]
    cases hb : batteryEval t th with
    | error e => simp [exceptBind_ok, exceptBind_err]
    | ok bl =>
      cases hc : signalEval t th <;> simp [exceptBind_ok, exceptBind_err]
  · intro h
    have hbt : batteryEval t th = .ok [] := by
      rcases h with h | h
      · cases hth : th.battery <;> simp [batteryEval, h, hth]
      · cases htt : t.battery <;> simp [batteryEval, htt, h]
    refine ⟨hbt, ?_⟩
    unfold evalMetrics
    cases ha : tempEval t th with
    | error e => simp [exceptBind_ok, exceptBind_err]
    | ok al =>
      rw [hbt]
      cases hc : signalEval t th <;> simp [exceptBind_ok, exceptBind_err]
  · intro h
    have hsg : signalEval t th = .ok [] := by
      rcases h with h | h
      · cases hth : th.signal_strength <;> simp [signalEval, h, hth]
      · cases htt : t.signal_strength <;> simp [signalEval, htt, h]
    unfold evalMetrics
    refine ⟨hsg, ?_⟩
    cases ha : tempEval t th with
    | error e => simp [exceptBind_ok, exceptBind_err]
    | ok al =>
      cases hb : batteryEval t th <;> rw [hsg] <;>
        simp [exceptBind_ok, exceptBind_err]

theorem absent_metric_skipped_rest_evaluated_witness :
    evalMetrics ⟨"w2", none, some 5, some (-90), none, none, none⟩
        ⟨some ⟨some 0, some 50⟩, some ⟨some 20, none⟩, some ⟨some (-80), none⟩⟩ =
      (do
        let b ← batteryEval ⟨"w2", none, some 5, some (-90), none, none, none⟩
            ⟨some ⟨some 0, some 50⟩, some ⟨some 20, none⟩, some ⟨some (-80), none⟩⟩
        let c ← signalEval ⟨"w2", none, some 5, some (-90), none, none, none⟩
            ⟨some ⟨some 0, some 50⟩, some ⟨some 20, none⟩, some ⟨some (-80), none⟩⟩
        return b ++ c) ∧
    evalMetrics ⟨"w2", none, some 5, some (-90), none, none, none⟩
        ⟨some ⟨some 0, some 50⟩, some ⟨some 20, none⟩, some ⟨some (-80), none⟩⟩ =
      .ok [⟨.LOW_BATTERY, 5, 20, .high⟩, ⟨.WEAK_SIGNAL, -90, -80, .medium⟩] :=
  ⟨((absent_metric_skipped_rest_evaluated _ _).1 (Or.inl rfl)).2, by decide⟩

theorem tempEval_eq_table (t : TelemetryData) (th : ThresholdConfig)
    (htemp : ∀ v b, t.temperature = some v → th.temperature = some b →
      ∃ mx, b.max = some mx ∧ (v ≤ mx → b.min.isSome)) :
    tempEval t th = .ok (ruleHighTemp t th ++ ruleLowTempGuarded t th) := by
  cases ht : t.temperature with
  | none =>
    cases hth : th.temperature <;>
      simp [tempEval, ruleHighTemp, ruleLowTempGuarded, ht, hth]
  | some v =>
    cases hth : th.temperature with
    | none => simp [tempEval, ruleHighTemp, ruleLowTempGuarded, ht, hth]
    | some b =>
      obtain ⟨mx, hmx, hmin⟩ := htemp v b ht hth
      by_cases hgt : v > mx
      · cases hmn : b.min <;>
          simp [tempEval, ruleHighTemp, ruleLowTempGuarded, ht, hth, hmx, hmn, hgt]
      · obtain ⟨mn, hmn⟩ := Option.isSome_iff_exists.1 (hmin (not_lt.1 hgt))
        by_cases hlt : v < mn <;>
          simp [tempEval, ruleHighTemp, ruleLowTempGuarded, ht, hth, hmx, hmn,
            hgt, hlt]

theorem batteryEval_eq_table (t : TelemetryData) (th : ThresholdConfig)
    (hbat : ∀ v b, t.battery = some v → th.battery = some b → b.min.isSome) :
    batteryEval t th = .ok (ruleLowBattery t th) := by
  cases hb : t.battery with
  | none => cases hth : th.battery <;> simp [batteryEval, ruleLowBattery, hb, hth]
  | some v =>
    cases hth : th.battery with
    | none => simp [batteryEval, ruleLowBattery, hb, hth]
    | some b =>
      obtain ⟨mn, hmn⟩ := Option.isSome_iff_exists.1 (hbat v b hb hth)
      by_cases hlt : v < mn <;> simp [batteryEval, ruleLowBattery, hb, hth, hmn, hlt]

theorem signalEval_eq_table (t : TelemetryData) (th : ThresholdConfig)
    (hsig : ∀ v b, t.signal_strength = some v → th.signal_strength = some b →
      b.min.isSome) :
    signalEval t th = .ok (ruleWeakSignal t th) := by
  cases hs : t.signal_strength with
  | none =>
    cases hth : th.signal_strength <;> simp [signalEval, ruleWeakSignal, hs, hth]
  | some v =>
    cases hth : th.signal_strength with
    | none => simp [signalEval, ruleWeakSignal, hs, hth]
    | some b =>
      obtain ⟨mn, hmn⟩ := Option.isSome_iff_exists.1 (hsig v b hs hth)
      by_cases hlt : v < mn <;> simp [signalEval, ruleWeakSignal, hs, hth, hmn, hlt]

/-- C3 amended: whenever each configured-and-sampled metric carries the
bounds the code reads (temperature's max, its min when the max is not
exceeded, battery's and signal's min), the candidate list equals the rule
table with the low-temperature row guarded by the max bound: temperature
below min yields LOW_TEMPERATURE only when it does not also exceed max; all
other rows are as the table states, including the battery severity split. -/
theorem evalMetrics_matches_guarded_rule_table (t : TelemetryData)
    (th : ThresholdConfig)
    (htemp : ∀ v b, t.temperature = some v → th.temperature = some b →
      ∃ mx, b.max = some mx ∧ (v ≤ mx → b.min.isSome))
    (hbat : ∀ v b, t.battery = some v → th.battery = some b → b.min.isSome)
    (hsig : ∀ v b, t.signal_strength = some v → th.signal_strength = some b →
      b.min.isSome) :
    evalMetrics t th = .ok (ruleTableCandidatesGuarded t th) := by
  unfold evalMetrics
  rw [tempEval_eq_table t th htemp, batteryEval_eq_table t th hbat,
    signalEval_eq_table t th hsig]
  simp [exceptBind_ok, ruleTableCandidatesGuarded, List.append_assoc]

theorem evalMetrics_matches_guarded_rule_table_witness :
    evalMetrics ⟨"w3", some 90, some 15, none, none, none, none⟩
        ⟨some ⟨none, some 85⟩, some ⟨some 20, none⟩, none⟩ =
      .ok (ruleTableCandidatesGuarded ⟨"w3", some 90, some 15, none, none, none, none⟩
        ⟨some ⟨none, some 85⟩, some ⟨some 20, none⟩, none⟩) ∧
    ruleTableCandidatesGuarded ⟨"w3", some 90, some 15, none, none, none, none⟩
        ⟨some ⟨none, some 85⟩, some ⟨some 20, none⟩, none⟩ =
      [⟨.HIGH_TEMPERATURE, 90, 85, .high⟩, ⟨.LOW_BATTERY, 15, 20, .medium⟩] :=
  ⟨evalMetrics_matches_guarded_rule_table _ _
     (fun v b hv hb => by
        obtain rfl := Option.some.inj hv
        obtain rfl := Option.some.inj hb
        exact ⟨85, rfl, fun hle => absurd hle (by norm_num)⟩)
     (fun v b hv hb => by
        obtain rfl := Option.some.inj hb
        rfl)
     (fun v b hv hb => Option.noConfusion hv),
   by decide⟩

/-- C10 amended: the per-metric rules fire independently across metrics, so
several candidates can come from one sample, but the two temperature rules
are an if/elif pair: when temperature exceeds max and is also below min
(possible when min is above max), only HIGH_TEMPERATURE is produced, and the
evaluation is that single candidate followed by whatever battery and signal
contribute. -/
theorem temp_rules_mutually_exclusive (t : TelemetryData) (th : ThresholdConfig)
    (v mx mn : ℚ) (b : MetricBound) (ht : t.temperature = some v)
    (hb : th.temperature = some b) (hmx : b.max = some mx) (hmn : b.min = some mn)
    (h1 : v > mx) (h2 : v < mn) :
    tempEval t th = .ok [⟨.HIGH_TEMPERATURE, v, mx, .high⟩] ∧
    evalMetrics t th = (do
      let bb ← batteryEval t th
      let cc ← signalEval t th
      return ⟨.HIGH_TEMPERATURE, v, mx, .high⟩ :: (bb ++ cc)) := by
  have htmp : tempEval t th = .ok [⟨.HIGH_TEMPERATURE, v, mx, .high⟩] := by
    simp [tempEval, ht, hb, hmx, h1]
  refine ⟨htmp, ?_⟩
  unfold evalMetrics
  rw [htmp]
  cases hbb : batteryEval t th with
  | error e => simp [exceptBind_ok, exceptBind_err]
  | ok bl =>
    cases hcc : signalEval t th <;> simp [exceptBind_ok, exceptBind_err]

theorem temp_rules_mutually_exclusive_witness :
    tempEval ⟨"w10", some 0, some 5, none, none, none, none⟩
        ⟨some ⟨some 10, some (-5)⟩, some ⟨some 20, none⟩, none⟩ =
      .ok [⟨.HIGH_TEMPERATURE, 0, -5, .high⟩] ∧
    evalMetrics ⟨"w10", some 0, some 5, none, none, none, none⟩
        ⟨some ⟨some 10, some (-5)⟩, some ⟨some 20, none⟩, none⟩ =
      .ok [⟨.HIGH_TEMPERATURE, 0, -5, .high⟩, ⟨.LOW_BATTERY, 5, 20, .high⟩] :=
  ⟨(temp_rules_mutually_exclusive _ _ 0 (-5) 10 ⟨some 10, some (-5)⟩ rfl rfl rfl rfl
      (by norm_num) (by norm_num)).1,
   ((temp_rules_mutually_exclusive _ _ 0 (-5) 10 ⟨some 10, some (-5)⟩ rfl rfl rfl rfl
      (by norm_num) (by norm_num)).2).trans (by decide)⟩

end VigilanceOS
